import Mathlib

/-!
Shallow embedding of the follow-service repository.

The data layer (`prisma`) is modelled as a `Store` of users and follow
edges; each prisma call used by `FollowService` becomes a Lean function
on `Store`. Store unavailability is modelled by an optional injected
`JsError` fault on the calls whose failure the service code handles.
The result ordering the store chooses for `findMany` with
`orderBy createdAt desc` is an explicit parameter constrained by
`ValidOrderBy`, because the query constrains only the creation-time
order, not the order of ties. Service methods are translated from
`src/services/follow.service.ts` (`src/unnamed/part_000`); the HTTP
error handler and the `getAllUsers` controller from
`src/middleware/errorHandler.ts` and `src/controllers/follow.controller.ts`.
-/

set_option autoImplicit false

namespace FollowSvc

/-- A row of the `User` table (id, unique handle, optional display label). -/
structure User where
  id : String
  username : String
  displayName : Option String
deriving DecidableEq

/-- A row of the `Follow` table: edge id, follower, followee, creation time. -/
structure Follow where
  id : String
  followerId : String
  followeeId : String
  createdAt : Nat
deriving DecidableEq

/-- The relational store: the only persisted state. -/
structure Store where
  users : List User
  follows : List Follow
deriving DecidableEq

/-- A raw (non-`AppError`) JavaScript `Error`, as the store client throws it. -/
structure JsError where
  message : String
deriving DecidableEq

/-- Structure `AppError` from `src/utils/errors.ts`: statusCode, message, optional code. -/
structure AppError where
  statusCode : Nat
  message : String
  code : Option String
deriving DecidableEq

/-- Function `createError` from `src/utils/errors.ts`. -/
def createError (statusCode : Nat) (message : String) (code : String) : AppError :=
  ⟨statusCode, message, some code⟩

def ErrorCodes.USER_NOT_FOUND : String := "USER_NOT_FOUND"

def ErrorCodes.SELF_FOLLOW : String := "SELF_FOLLOW"

def ErrorCodes.DUPLICATE_FOLLOW : String := "DUPLICATE_FOLLOW"

def ErrorCodes.FOLLOW_NOT_FOUND : String := "FOLLOW_NOT_FOUND"

def ErrorCodes.INTERNAL_ERROR : String := "INTERNAL_ERROR"

/-- A value thrown by service code: either a typed `AppError` or a rethrown
raw store error. -/
inductive Thrown where
  | app (e : AppError)
  | js (e : JsError)
deriving DecidableEq

instance {ε α : Type} [DecidableEq ε] [DecidableEq α] : DecidableEq (Except ε α) := fun x y =>
  match x, y with
  | Except.ok a, Except.ok b =>
    if h : a = b then isTrue (by simp [h]) else isFalse (by simp [h])
  | Except.ok _, Except.error _ => isFalse (by simp)
  | Except.error _, Except.ok _ => isFalse (by simp)
  | Except.error a, Except.error b =>
    if h : a = b then isTrue (by simp [h]) else isFalse (by simp [h])

/-- Request body `{followerId, followeeId}` after validation. -/
structure FollowRequest where
  followerId : String
  followeeId : String
deriving DecidableEq

/-- Validated `{limit, offset}` pagination query. -/
structure Pagination where
  limit : Nat
  offset : Nat
deriving DecidableEq

/-- Model of `prisma.user.findUnique({ where: { id } })`. -/
def user_findUnique (s : Store) (userId : String) : Option User :=
  s.users.find? (fun u => u.id == userId)

/-- Model of `prisma.follow.findUnique({ where: { followerId_followeeId } })`:
lookup by the compound unique key. -/
def follow_findUnique (s : Store) (followerId followeeId : String) : Option Follow :=
  s.follows.find? (fun f => f.followerId == followerId && f.followeeId == followeeId)

/-- The message Prisma reports for a violation of the unique constraint on
`(followerId, followeeId)` (as exercised by the repository's own test). -/
def uniqueViolationMsg : String :=
  "Unique constraint failed on the fields: (`followerId`,`followeeId`)"

/-- Whether `pat` occurs as a contiguous run inside the second list. -/
def charRunIn (pat : List Char) : List Char → Bool
  | [] => pat.isEmpty
  | c :: cs => List.isPrefixOf pat (c :: cs) || charRunIn pat cs

/-- JavaScript `m.includes(pat)` on strings. -/
def strIncludes (m pat : String) : Bool :=
  charRunIn pat.toList m.toList

/-- Model of `prisma.follow.create({ data: { followerId, followeeId } })`.
The store enforces the unique constraint over the pair: a duplicate insert
throws `uniqueViolationMsg`. `freshId` and `now` stand for the generated
edge id and timestamp; `fault`, when present, is a store failure
(unavailability or any other unclassified error). -/
def follow_create (s : Store) (followerId followeeId freshId : String) (now : Nat)
    (fault : Option JsError) : Except JsError (Follow × Store) :=
  match fault with
  | some e => Except.error e
  | none =>
    if s.follows.any (fun f => f.followerId == followerId && f.followeeId == followeeId) then
      Except.error ⟨uniqueViolationMsg⟩
    else
      let f : Follow := ⟨freshId, followerId, followeeId, now⟩
      Except.ok (f, { s with follows := s.follows ++ [f] })

/-- Model of `prisma.follow.delete({ where: { id } })`: removes the edges bearing `id`. -/
def follow_delete (s : Store) (id : String) : Store :=
  { s with follows := s.follows.filter (fun f => f.id != id) }

/-- Translation of `FollowService.followUser`, clause by clause:
self-check, both existence checks (follower reported first), create,
catch classifying the store error by the substring
`Unique constraint failed`, otherwise rethrow. Returns the outcome and
the post-state of the store. -/
def followUser (s : Store) (req : FollowRequest) (freshId : String) (now : Nat)
    (fault : Option JsError) : Except Thrown String × Store :=
  if req.followerId == req.followeeId then
    (Except.error (Thrown.app (createError 400 "Cannot follow yourself" ErrorCodes.SELF_FOLLOW)), s)
  else
    match user_findUnique s req.followerId, user_findUnique s req.followeeId with
    | none, _ =>
      (Except.error (Thrown.app (createError 404 "Follower user not found" ErrorCodes.USER_NOT_FOUND)), s)
    | some _, none =>
      (Except.error (Thrown.app (createError 404 "Followee user not found" ErrorCodes.USER_NOT_FOUND)), s)
    | some _, some _ =>
      match follow_create s req.followerId req.followeeId freshId now fault with
      | Except.ok (f, s2) => (Except.ok f.id, s2)
      | Except.error e =>
        if strIncludes e.message "Unique constraint failed" then
          (Except.error (Thrown.app (createError 409 "Already following this user" ErrorCodes.DUPLICATE_FOLLOW)), s)
        else
          (Except.error (Thrown.js e), s)

/-- Translation of `FollowService.unfollowUser`: lookup by pair, `FOLLOW_NOT_FOUND` when
absent, otherwise delete by the found edge's own id. -/
def unfollowUser (s : Store) (req : FollowRequest) : Except Thrown Unit × Store :=
  match follow_findUnique s req.followerId req.followeeId with
  | none =>
    (Except.error (Thrown.app (createError 404 "Follow relationship not found" ErrorCodes.FOLLOW_NOT_FOUND)), s)
  | some f => (Except.ok (), follow_delete s f.id)

/-- Translation of `FollowService.isFollowing`: bare pair lookup, `!!follow`. -/
def isFollowing (s : Store) (followerId followeeId : String) : Except Thrown Bool × Store :=
  (Except.ok (follow_findUnique s followerId followeeId).isSome, s)

/-- The edges whose followee is `userId` (the `where` clause of the
followers `count` and `findMany` queries). -/
def followersOf (s : Store) (userId : String) : List Follow :=
  s.follows.filter (fun f => f.followeeId == userId)

/-- The edges whose follower is `userId`. -/
def followingOf (s : Store) (userId : String) : List Follow :=
  s.follows.filter (fun f => f.followerId == userId)

/-- The `{id, username, displayName}` selection of a user row. -/
structure UserView where
  id : String
  username : String
  displayName : Option String
deriving DecidableEq

def toView (u : User) : UserView :=
  ⟨u.id, u.username, u.displayName⟩

/-- The related user included by `findMany` (via the foreign key). -/
def userView? (s : Store) (uid : String) : Option UserView :=
  (user_findUnique s uid).map toView

/-- Result shape of `getFollowers` / `getFollowing`. -/
structure Page where
  total : Nat
  items : List (Option UserView)
deriving DecidableEq

/-- Holds when `ordered` is a result the store may return for `findMany` with
`orderBy: { createdAt: desc }` over `matching`: some permutation of the
matching rows that is sorted by creation time, most recent first. The
query constrains nothing else, so ties may come back in any order. -/
def ValidOrderBy (matching ordered : List Follow) : Prop :=
  List.Perm ordered matching ∧ List.Chain' (fun a b => b.createdAt ≤ a.createdAt) ordered

/-- Translation of `FollowService.getFollowers`: existence check, then `count` and
`findMany` with `skip: offset, take: limit`, `include: follower`,
`orderBy createdAt desc`. `ordered` is the ordering the store chose for
the matching edges (constrained by `ValidOrderBy` in the theorems). -/
def getFollowers (s : Store) (userId : String) (pag : Pagination)
    (ordered : List Follow) : Except Thrown Page × Store :=
  match user_findUnique s userId with
  | none =>
    (Except.error (Thrown.app (createError 404 "User not found" ErrorCodes.USER_NOT_FOUND)), s)
  | some _ =>
    (Except.ok ⟨(followersOf s userId).length,
      ((ordered.drop pag.offset).take pag.limit).map (fun f => userView? s f.followerId)⟩, s)

/-- Translation of `FollowService.getFollowing`: symmetric to `getFollowers`. -/
def getFollowing (s : Store) (userId : String) (pag : Pagination)
    (ordered : List Follow) : Except Thrown Page × Store :=
  match user_findUnique s userId with
  | none =>
    (Except.error (Thrown.app (createError 404 "User not found" ErrorCodes.USER_NOT_FOUND)), s)
  | some _ =>
    (Except.ok ⟨(followingOf s userId).length,
      ((ordered.drop pag.offset).take pag.limit).map (fun f => userView? s f.followeeId)⟩, s)

/-- Translation of `FollowService.getFollowerCount`: existence check then count. -/
def getFollowerCount (s : Store) (userId : String) : Except Thrown Nat × Store :=
  match user_findUnique s userId with
  | none =>
    (Except.error (Thrown.app (createError 404 "User not found" ErrorCodes.USER_NOT_FOUND)), s)
  | some _ => (Except.ok (followersOf s userId).length, s)

/-- Translation of `FollowService.getFollowingCount`: existence check then count. -/
def getFollowingCount (s : Store) (userId : String) : Except Thrown Nat × Store :=
  match user_findUnique s userId with
  | none =>
    (Except.error (Thrown.app (createError 404 "User not found" ErrorCodes.USER_NOT_FOUND)), s)
  | some _ => (Except.ok (followingOf s userId).length, s)

/-- Insertion step for the `orderBy: { username: asc }` of `getAllUsers`. -/
def insertByUsername (u : User) : List User → List User
  | [] => [u]
  | v :: vs => if u.username ≤ v.username then u :: v :: vs else v :: insertByUsername u vs

/-- Sort users by handle ascending. -/
def sortByUsername : List User → List User
  | [] => []
  | u :: us => insertByUsername u (sortByUsername us)

/-- Translation of `FollowService.getAllUsers`: `findMany` selecting the view, ordered by
username ascending; `fault` models store unavailability. -/
def getAllUsers (s : Store) (fault : Option JsError) : Except JsError (List UserView) × Store :=
  match fault with
  | some e => (Except.error e, s)
  | none => (Except.ok ((sortByUsername s.users).map toView), s)

/-- The JSON error body the handler sends, with its HTTP status. -/
structure HttpResponse where
  status : Nat
  success : Bool
  message : String
  code : Option String
deriving DecidableEq

/-- Translation of `errorHandler` from `src/middleware/errorHandler.ts`: an `AppError`
is rendered with its own status, message and code; anything else gets the
fixed 500 body. -/
def errorHandler : Thrown → HttpResponse
  | Thrown.app e => ⟨e.statusCode, false, e.message, e.code⟩
  | Thrown.js _ => ⟨500, false, "Internal server error", some "INTERNAL_ERROR"⟩

/-- Composition of `followController.getAllUsers` with `errorHandler`: on a
service failure the catch block wraps the error as
`createError(500, err.message || 'Failed to fetch users', INTERNAL_ERROR)`
and the thrown `AppError` is rendered by the handler. -/
def getAllUsersRoute (s : Store) (fault : Option JsError) : Except HttpResponse (List UserView) :=
  match (getAllUsers s fault).1 with
  | Except.ok users => Except.ok users
  | Except.error e =>
    Except.error (errorHandler (Thrown.app
      (createError 500 (if e.message == "" then "Failed to fetch users" else e.message)
        ErrorCodes.INTERNAL_ERROR)))

/-- The edges of the pair `(a, b)` present in the store. -/
def pairEdges (s : Store) (a b : String) : List Follow :=
  s.follows.filter (fun f => f.followerId == a && f.followeeId == b)

/-- Concrete fixture: two users, no edges. -/
def uA : User := ⟨"a", "alice", some "Alice"⟩

def uB : User := ⟨"b", "bob", none⟩

def eAB : Follow := ⟨"e1", "a", "b", 10⟩

def s0 : Store := ⟨[uA, uB], []⟩

def s1 : Store := ⟨[uA, uB], [eAB]⟩

def emptyStore : Store := ⟨[], []⟩

/-- Concrete fixture for ties: `u` has two followers whose edges share
the creation time 5. -/
def uU : User := ⟨"u", "uma", none⟩

def eAU : Follow := ⟨"ea", "a", "u", 5⟩

def eBU : Follow := ⟨"eb", "b", "u", 5⟩

def sTie : Store := ⟨[uA, uB, uU], [eAU, eBU]⟩

/-- The stable-tiebreak property the claim asserts of `getFollowers`:
whatever order consistent with `orderBy createdAt desc` the store picks,
the page the caller sees is the same, so pagination is stable across
calls. -/
def followersPageDeterministic : Prop :=
  ∀ (s : Store) (u : String) (pag : Pagination) (o1 o2 : List Follow),
    ValidOrderBy (followersOf s u) o1 → ValidOrderBy (followersOf s u) o2 →
    (getFollowers s u pag o1).1 = (getFollowers s u pag o2).1

/-- A successful `follow_create` always returns the freshly built edge and
appends exactly it. -/
theorem follow_create_ok_iff (s : Store) (fid feid fresh : String) (now : Nat)
    (fault : Option JsError) (f : Follow) (s2 : Store)
    (h : follow_create s fid feid fresh now fault = Except.ok (f, s2)) :
    f = ⟨fresh, fid, feid, now⟩ ∧ s2 = { s with follows := s.follows ++ [f] } := by
  cases fault with
  | some e => simp [follow_create] at h
  | none =>
    by_cases hdup : s.follows.any (fun g => g.followerId == fid && g.followeeId == feid)
    · simp [follow_create, hdup] at h
    · simp [follow_create, hdup] at h
      obtain ⟨h1, h2⟩ := h
      subst h1
      exact ⟨rfl, h2.symm⟩

/-- C2: For every user identifier A and every store state, `Follow(A,A)`
fails with the `SelfFollow` error (400, `SELF_FOLLOW`) and the store is
identical before and after the call, whatever the store's behaviour. -/
theorem followUser_self_follow (s : Store) (a freshId : String) (now : Nat)
    (fault : Option JsError) :
    followUser s ⟨a, a⟩ freshId now fault =
      (Except.error (Thrown.app ⟨400, "Cannot follow yourself", some "SELF_FOLLOW"⟩), s) := by
  simp [followUser, createError, ErrorCodes.SELF_FOLLOW]

/-- C9: `Follow` mutates the store exactly on success: every error leaves
the edge set (and user set) unchanged, and a success appends exactly one
new edge, whose identifier is the returned one. -/
theorem followUser_store_change_iff_success (s : Store) (req : FollowRequest)
    (freshId : String) (now : Nat) (fault : Option JsError) :
    (∀ e, (followUser s req freshId now fault).1 = Except.error e →
        (followUser s req freshId now fault).2 = s) ∧
    (∀ id, (followUser s req freshId now fault).1 = Except.ok id →
        id = freshId ∧
        (followUser s req freshId now fault).2.users = s.users ∧
        (followUser s req freshId now fault).2.follows
          = s.follows ++ [⟨freshId, req.followerId, req.followeeId, now⟩]) := by
  unfold followUser
  split
  · exact ⟨fun e _ => rfl, fun id h => by simp at h⟩
  · cases hfa : user_findUnique s req.followerId with
    | none => exact ⟨fun e _ => rfl, fun id h => by simp [hfa] at h⟩
    | some ua =>
      cases hfb : user_findUnique s req.followeeId with
      | none => exact ⟨fun e _ => rfl, fun id h => by simp [hfa, hfb] at h⟩
      | some ub =>
        cases hc : follow_create s req.followerId req.followeeId freshId now fault with
        | error e =>
          refine ⟨fun e2 _ => ?_, fun id h => ?_⟩
          · simp only [hfa, hfb, hc]
            split <;> rfl
          · simp only [hfa, hfb, hc] at h
            split at h <;> simp at h
        | ok p =>
          obtain ⟨f, s2⟩ := p
          obtain ⟨hf, hs2⟩ := follow_create_ok_iff s _ _ _ _ _ _ _ hc
          refine ⟨fun e h => ?_, fun id h => ?_⟩
          · simp [hfa, hfb, hc] at h
          · simp only [hfa, hfb, hc] at h ⊢
            simp at h
            subst hf hs2
            exact ⟨h.symm, rfl, rfl⟩

/-- Witness for C9 at a concrete input: on the two-user store with no
edges, following returns the fresh id and appends exactly the new edge. -/
theorem followUser_store_change_iff_success_witness :
    (followUser s0 ⟨"a", "b"⟩ "e9" 7 none).2.follows = s0.follows ++ [⟨"e9", "a", "b", 7⟩] := by
  have h := followUser_store_change_iff_success s0 ⟨"a", "b"⟩ "e9" 7 none
  exact (h.2 "e9" (by decide)).2.2

/-- C1: when the pair `(a, b)` already has an edge, a repeated `Follow`
fails with `DuplicateFollow` (409, `DUPLICATE_FOLLOW`, classified from the
store's unique-constraint message) and the store keeps exactly one edge of
the pair; and a store write failure whose message cannot be classified is
rethrown raw, which the error handler surfaces as the generic 500
`INTERNAL_ERROR` body, never as a success. -/
theorem followUser_duplicate_and_unclassified (s : Store) (a b freshId : String)
    (now : Nat) (ua ub : User)
    (hne : a ≠ b)
    (ha : user_findUnique s a = some ua) (hb : user_findUnique s b = some ub)
    (hdup : s.follows.any (fun f => f.followerId == a && f.followeeId == b))
    (hone : (pairEdges s a b).length = 1) :
    (followUser s ⟨a, b⟩ freshId now none =
      (Except.error (Thrown.app ⟨409, "Already following this user", some "DUPLICATE_FOLLOW"⟩), s)) ∧
    (pairEdges (followUser s ⟨a, b⟩ freshId now none).2 a b).length = 1 ∧
    (∀ e : JsError, strIncludes e.message "Unique constraint failed" = false →
      followUser s ⟨a, b⟩ freshId now (some e) = (Except.error (Thrown.js e), s) ∧
      errorHandler (Thrown.js e) = ⟨500, false, "Internal server error", some "INTERNAL_ERROR"⟩) := by
  have hne2 : (a == b) = false := by simp [hne]
  have hmsg : strIncludes uniqueViolationMsg "Unique constraint failed" = true := by decide
  have h1 : followUser s ⟨a, b⟩ freshId now none =
      (Except.error (Thrown.app ⟨409, "Already following this user", some "DUPLICATE_FOLLOW"⟩), s) := by
    simp [followUser, hne2, ha, hb, follow_create, hdup, hmsg, createError,
      ErrorCodes.DUPLICATE_FOLLOW]
  refine ⟨h1, ?_, ?_⟩
  · rw [h1]
    exact hone
  · intro e he
    constructor
    · simp [followUser, hne2, ha, hb, follow_create, he]
    · rfl

/-- Witness for C1 at a concrete input: on the store already holding the
edge a→b, a repeated follow yields `DUPLICATE_FOLLOW` with one edge left,
and the unclassifiable store error message `boom` is surfaced as the
generic internal body. -/
theorem followUser_duplicate_and_unclassified_witness :
    (followUser s1 ⟨"a", "b"⟩ "e2" 11 none =
      (Except.error (Thrown.app ⟨409, "Already following this user", some "DUPLICATE_FOLLOW"⟩), s1)) ∧
    (pairEdges (followUser s1 ⟨"a", "b"⟩ "e2" 11 none).2 "a" "b").length = 1 ∧
    (followUser s1 ⟨"a", "b"⟩ "e2" 11 (some ⟨"boom"⟩) =
      (Except.error (Thrown.js ⟨"boom"⟩), s1)) := by
  have h := followUser_duplicate_and_unclassified s1 "a" "b" "e2" 11 uA uB
    (by decide) (by decide) (by decide) (by decide) (by decide)
  exact ⟨h.1, h.2.1, (h.2.2 ⟨"boom"⟩ (by decide)).1⟩

theorem find?_append_of_none {α : Type} (p : α → Bool) (l1 l2 : List α)
    (h : l1.find? p = none) : (l1 ++ l2).find? p = l2.find? p := by
  induction l1 with
  | nil => rfl
  | cons x xs ih =>
    cases hpx : p x with
    | true => simp [List.find?, hpx] at h
    | false =>
      simp only [List.find?, hpx] at h ⊢
      exact ih h

/-- C3: with distinct endpoints, `Follow` fails with 404 `USER_NOT_FOUND`
when an endpoint is missing, the message naming the absent endpoint
(follower checked first), and the store is unchanged. -/
theorem followUser_user_not_found (s : Store) (a b freshId : String) (now : Nat)
    (fault : Option JsError) (hne : a ≠ b) :
    (user_findUnique s a = none →
      followUser s ⟨a, b⟩ freshId now fault =
        (Except.error (Thrown.app ⟨404, "Follower user not found", some "USER_NOT_FOUND"⟩), s)) ∧
    (∀ ua, user_findUnique s a = some ua → user_findUnique s b = none →
      followUser s ⟨a, b⟩ freshId now fault =
        (Except.error (Thrown.app ⟨404, "Followee user not found", some "USER_NOT_FOUND"⟩), s)) := by
  have hne2 : (a == b) = false := by simp [hne]
  constructor
  · intro h
    simp [followUser, hne2, h, createError, ErrorCodes.USER_NOT_FOUND]
  · intro ua ha hb
    simp [followUser, hne2, ha, hb, createError, ErrorCodes.USER_NOT_FOUND]

/-- Witness for C3 at concrete inputs: on the two-user store, following
from or to the unknown id `z` fails with the endpoint-specific message. -/
theorem followUser_user_not_found_witness :
    followUser s0 ⟨"z", "b"⟩ "e3" 1 none =
      (Except.error (Thrown.app ⟨404, "Follower user not found", some "USER_NOT_FOUND"⟩), s0) ∧
    followUser s0 ⟨"a", "z"⟩ "e3" 1 none =
      (Except.error (Thrown.app ⟨404, "Followee user not found", some "USER_NOT_FOUND"⟩), s0) := by
  constructor
  · exact (followUser_user_not_found s0 "z" "b" "e3" 1 none (by decide)).1 (by decide)
  · exact (followUser_user_not_found s0 "a" "z" "e3" 1 none (by decide)).2 uA (by decide) (by decide)

/-- C4: `Unfollow` looks the edge up by the pair; when absent it fails
with 404 `FOLLOW_NOT_FOUND` leaving the store unchanged; when present it
succeeds and deletes by the found edge's own identifier: that edge is
gone, every edge with a different identifier survives, and nothing new
appears. -/
theorem unfollowUser_spec (s : Store) (a b : String) :
    (follow_findUnique s a b = none →
      unfollowUser s ⟨a, b⟩ =
        (Except.error (Thrown.app ⟨404, "Follow relationship not found", some "FOLLOW_NOT_FOUND"⟩), s)) ∧
    (∀ f, follow_findUnique s a b = some f →
      (unfollowUser s ⟨a, b⟩).1 = Except.ok () ∧
      (unfollowUser s ⟨a, b⟩).2.users = s.users ∧
      f ∉ (unfollowUser s ⟨a, b⟩).2.follows ∧
      (∀ g ∈ s.follows, g.id ≠ f.id → g ∈ (unfollowUser s ⟨a, b⟩).2.follows) ∧
      (∀ g ∈ (unfollowUser s ⟨a, b⟩).2.follows, g ∈ s.follows)) := by
  constructor
  · intro h
    simp [unfollowUser, h, createError, ErrorCodes.FOLLOW_NOT_FOUND]
  · intro f hf
    refine ⟨by simp [unfollowUser, hf], by simp [unfollowUser, hf, follow_delete], ?_, ?_, ?_⟩
    · simp [unfollowUser, hf, follow_delete, List.mem_filter]
    · intro g hg hid
      simp [unfollowUser, hf, follow_delete, List.mem_filter]
      exact ⟨hg, hid⟩
    · intro g hg
      simp [unfollowUser, hf, follow_delete, List.mem_filter] at hg
      exact hg.1

/-- Witness for C4 at concrete inputs: unfollowing a missing pair on the
edgeless store fails with `FOLLOW_NOT_FOUND`; unfollowing the present
edge a→b succeeds and removes it. -/
theorem unfollowUser_spec_witness :
    unfollowUser s0 ⟨"a", "b"⟩ =
      (Except.error (Thrown.app ⟨404, "Follow relationship not found", some "FOLLOW_NOT_FOUND"⟩), s0) ∧
    (unfollowUser s1 ⟨"a", "b"⟩).1 = Except.ok () ∧
    eAB ∉ (unfollowUser s1 ⟨"a", "b"⟩).2.follows := by
  refine ⟨(unfollowUser_spec s0 "a" "b").1 (by decide), ?_, ?_⟩
  · exact ((unfollowUser_spec s1 "a" "b").2 eAB (by decide)).1
  · exact ((unfollowUser_spec s1 "a" "b").2 eAB (by decide)).2.2.1

/-- C5: for existing distinct users with no prior edge, `Follow` succeeds
returning the fresh id, `IsFollowing` then reports true, `Unfollow`
succeeds, and `IsFollowing` reports false again (round trip). -/
theorem follow_isFollowing_roundtrip (s : Store) (a b freshId : String) (now : Nat)
    (ua ub : User) (hne : a ≠ b)
    (ha : user_findUnique s a = some ua) (hb : user_findUnique s b = some ub)
    (hnone : follow_findUnique s a b = none) :
    (followUser s ⟨a, b⟩ freshId now none).1 = Except.ok freshId ∧
    (isFollowing (followUser s ⟨a, b⟩ freshId now none).2 a b).1 = Except.ok true ∧
    (unfollowUser (followUser s ⟨a, b⟩ freshId now none).2 ⟨a, b⟩).1 = Except.ok () ∧
    (isFollowing (unfollowUser (followUser s ⟨a, b⟩ freshId now none).2 ⟨a, b⟩).2 a b).1 =
      Except.ok false := by
  have hne2 : (a == b) = false := by simp [hne]
  have hnone2 : s.follows.find? (fun f => f.followerId == a && f.followeeId == b) = none := hnone
  have hanyf : s.follows.any (fun f => f.followerId == a && f.followeeId == b) = false := by
    rw [List.any_eq_false]
    intro f hf
    have := List.find?_eq_none.mp hnone2 f hf
    simpa using this
  have hcreate : follow_create s a b freshId now none =
      Except.ok (⟨freshId, a, b, now⟩,
        { s with follows := s.follows ++ [⟨freshId, a, b, now⟩] }) := by
    simp [follow_create, hanyf]
  have hfu : followUser s ⟨a, b⟩ freshId now none =
      (Except.ok freshId, { s with follows := s.follows ++ [⟨freshId, a, b, now⟩] }) := by
    simp [followUser, hne2, ha, hb, hcreate]
  have hfind2 : follow_findUnique
      { s with follows := s.follows ++ [⟨freshId, a, b, now⟩] } a b =
      some ⟨freshId, a, b, now⟩ := by
    unfold follow_findUnique
    rw [find?_append_of_none _ _ _ hnone2]
    simp [List.find?]
  have hfind3 : follow_findUnique
      (follow_delete { s with follows := s.follows ++ [⟨freshId, a, b, now⟩] } freshId) a b =
      none := by
    unfold follow_findUnique follow_delete
    rw [List.find?_eq_none]
    intro f hf
    rw [List.mem_filter] at hf
    obtain ⟨hmem, hid⟩ := hf
    rw [List.mem_append] at hmem
    cases hmem with
    | inl hmem =>
      have := List.find?_eq_none.mp hnone2 f hmem
      simpa using this
    | inr hmem =>
      simp at hmem
      subst hmem
      simp at hid
  refine ⟨by rw [hfu], ?_, ?_, ?_⟩
  · rw [hfu]
    simp [isFollowing, hfind2]
  · rw [hfu]
    simp [unfollowUser, hfind2]
  · rw [hfu]
    simp [unfollowUser, hfind2, isFollowing, hfind3]

/-- Witness for C5 at a concrete input: on the two-user store with no
edges, the follow / check / unfollow / check round trip behaves as
stated. -/
theorem follow_isFollowing_roundtrip_witness :
    (followUser s0 ⟨"a", "b"⟩ "e5" 3 none).1 = Except.ok "e5" ∧
    (isFollowing (followUser s0 ⟨"a", "b"⟩ "e5" 3 none).2 "a" "b").1 = Except.ok true ∧
    (unfollowUser (followUser s0 ⟨"a", "b"⟩ "e5" 3 none).2 ⟨"a", "b"⟩).1 = Except.ok () ∧
    (isFollowing (unfollowUser (followUser s0 ⟨"a", "b"⟩ "e5" 3 none).2 ⟨"a", "b"⟩).2 "a" "b").1 =
      Except.ok false :=
  follow_isFollowing_roundtrip s0 "a" "b" "e5" 3 uA uB (by decide) (by decide) (by decide)
    (by decide)

/-- C6 counterexample: the query orders only by creation time, so on two
edges tied at time 5 the store may return either order; with limit 1 and
offset 0 the two runs show different followers. The claimed stable
deterministic tiebreak does not hold of the implementation. -/
theorem getFollowers_tiebreak_not_deterministic : ¬ followersPageDeterministic := by
  intro h
  have hv1 : ValidOrderBy (followersOf sTie "u") [eAU, eBU] := by
    refine ⟨by decide, ?_⟩
    simp [List.chain'_cons, eAU, eBU]
  have hv2 : ValidOrderBy (followersOf sTie "u") [eBU, eAU] := by
    refine ⟨by decide, ?_⟩
    simp [List.chain'_cons, eAU, eBU]
  have heq := h sTie "u" ⟨1, 0⟩ [eAU, eBU] [eBU, eAU] hv1 hv2
  exact absurd heq (by decide)

/-- C6 amended: with the user present and `ordered` any store result
consistent with `orderBy createdAt desc`, `getFollowers` returns the
total follower count (independent of pagination) and the page obtained by
skipping `offset` then taking at most `limit` entries of that
most-recent-first ordering; pages at offsets 0 and `limit` of one
ordering concatenate to its first `limit + limit` entries with no overlap
and no gap. No tiebreak beyond the creation time is imposed. -/
theorem getFollowers_page_spec (s : Store) (u : String) (pag : Pagination)
    (ordered : List Follow) (uu : User)
    (hu : user_findUnique s u = some uu)
    (hv : ValidOrderBy (followersOf s u) ordered) :
    ∃ page, (getFollowers s u pag ordered).1 = Except.ok page ∧
      page.total = (followersOf s u).length ∧
      page.items.length ≤ pag.limit ∧
      page.items = ((ordered.drop pag.offset).take pag.limit).map
        (fun f => userView? s f.followerId) ∧
      List.Chain' (fun a b => b.createdAt ≤ a.createdAt) ordered ∧
      List.Perm ordered (followersOf s u) ∧
      (∀ p0 p1, (getFollowers s u ⟨pag.limit, 0⟩ ordered).1 = Except.ok p0 →
        (getFollowers s u ⟨pag.limit, pag.limit⟩ ordered).1 = Except.ok p1 →
        p0.items ++ p1.items = (ordered.take (pag.limit + pag.limit)).map
          (fun f => userView? s f.followerId)) := by
  refine ⟨⟨(followersOf s u).length,
    ((ordered.drop pag.offset).take pag.limit).map (fun f => userView? s f.followerId)⟩,
    by simp [getFollowers, hu], rfl, ?_, rfl, hv.2, hv.1, ?_⟩
  · calc (((ordered.drop pag.offset).take pag.limit).map
        (fun f => userView? s f.followerId)).length
        = ((ordered.drop pag.offset).take pag.limit).length := List.length_map _ _
      _ ≤ pag.limit := by
          rw [List.length_take]
          exact min_le_left _ _
  · intro p0 p1 h0 h1
    simp [getFollowers, hu] at h0 h1
    rw [← h0, ← h1]
    dsimp only
    rw [← List.take_add, List.map_take]

/-- Witness for C6 amended at a concrete input: the tie store with one
valid ordering, limit 1, offset 0. -/
theorem getFollowers_page_spec_witness :
    ∃ page, (getFollowers sTie "u" ⟨1, 0⟩ [eAU, eBU]).1 = Except.ok page ∧
      page.total = (followersOf sTie "u").length ∧
      page.items.length ≤ 1 ∧
      page.items = (([eAU, eBU].drop 0).take 1).map (fun f => userView? sTie f.followerId) ∧
      List.Chain' (fun a b => b.createdAt ≤ a.createdAt) [eAU, eBU] ∧
      List.Perm [eAU, eBU] (followersOf sTie "u") ∧
      (∀ p0 p1, (getFollowers sTie "u" ⟨1, 0⟩ [eAU, eBU]).1 = Except.ok p0 →
        (getFollowers sTie "u" ⟨1, 1⟩ [eAU, eBU]).1 = Except.ok p1 →
        p0.items ++ p1.items = ([eAU, eBU].take (1 + 1)).map
          (fun f => userView? sTie f.followerId)) :=
  getFollowers_page_spec sTie "u" ⟨1, 0⟩ [eAU, eBU] uU (by decide)
    ⟨by decide, by simp [List.chain'_cons, eAU, eBU]⟩

/-- C7 counterexample: `isFollowing` performs no user-existence check; on
the empty store, with the queried users absent, it succeeds with `false`
instead of failing with `UserNotFound`. -/
theorem isFollowing_no_user_check :
    user_findUnique emptyStore "a" = none ∧
    user_findUnique emptyStore "b" = none ∧
    (isFollowing emptyStore "a" "b").1 = Except.ok false := by
  refine ⟨rfl, rfl, rfl⟩

/-- C7 amended: `ListFollowers`, `ListFollowing`, `FollowerCount` and
`FollowingCount` fail with 404 `USER_NOT_FOUND` when the queried user does
not exist; `IsFollowing`, by contrast, checks no user existence and
succeeds with the bare pair-lookup result. -/
theorem reads_user_not_found_except_isFollowing (s : Store) (u : String)
    (pag : Pagination) (ordered : List Follow)
    (h : user_findUnique s u = none) :
    (getFollowers s u pag ordered).1 =
      Except.error (Thrown.app ⟨404, "User not found", some "USER_NOT_FOUND"⟩) ∧
    (getFollowing s u pag ordered).1 =
      Except.error (Thrown.app ⟨404, "User not found", some "USER_NOT_FOUND"⟩) ∧
    (getFollowerCount s u).1 =
      Except.error (Thrown.app ⟨404, "User not found", some "USER_NOT_FOUND"⟩) ∧
    (getFollowingCount s u).1 =
      Except.error (Thrown.app ⟨404, "User not found", some "USER_NOT_FOUND"⟩) ∧
    (∀ b, (isFollowing s u b).1 = Except.ok (follow_findUnique s u b).isSome ∧
      (isFollowing s b u).1 = Except.ok (follow_findUnique s b u).isSome) := by
  refine ⟨?_, ?_, ?_, ?_, fun b => ⟨rfl, rfl⟩⟩
  · simp [getFollowers, h, createError, ErrorCodes.USER_NOT_FOUND]
  · simp [getFollowing, h, createError, ErrorCodes.USER_NOT_FOUND]
  · simp [getFollowerCount, h, createError, ErrorCodes.USER_NOT_FOUND]
  · simp [getFollowingCount, h, createError, ErrorCodes.USER_NOT_FOUND]

/-- Witness for C7 amended at a concrete input: the empty store and the
absent user id `a`. -/
theorem reads_user_not_found_except_isFollowing_witness :
    (getFollowers emptyStore "a" ⟨20, 0⟩ []).1 =
      Except.error (Thrown.app ⟨404, "User not found", some "USER_NOT_FOUND"⟩) ∧
    (getFollowerCount emptyStore "a").1 =
      Except.error (Thrown.app ⟨404, "User not found", some "USER_NOT_FOUND"⟩) ∧
    (isFollowing emptyStore "a" "b").1 = Except.ok false := by
  have h := reads_user_not_found_except_isFollowing emptyStore "a" ⟨20, 0⟩ [] (by decide)
  exact ⟨h.1, h.2.2.1, (h.2.2.2.2 "b").1⟩

/-- C8 counterexample: the `getAllUsers` controller wraps a store failure
as `createError(500, err.message, INTERNAL_ERROR)`, so the client-visible
message is the internal error's own detail: two runs differing only in the
store error produce different bodies. -/
theorem getAllUsers_internal_message_leaks :
    getAllUsersRoute emptyStore (some ⟨"db down"⟩) =
      Except.error ⟨500, false, "db down", some "INTERNAL_ERROR"⟩ ∧
    getAllUsersRoute emptyStore (some ⟨"socket closed"⟩) =
      Except.error ⟨500, false, "socket closed", some "INTERNAL_ERROR"⟩ ∧
    ("db down" : String) ≠ "socket closed" := by
  refine ⟨rfl, rfl, by decide⟩

/-- C8 amended: an error that reaches the error handler unclassified (as a
raw store error, not an `AppError`) is rendered with the fixed generic 500
body, independent of its detail; but the `getAllUsers` controller wraps
store failures into an `INTERNAL_ERROR`-coded `AppError` carrying the
underlying message, which the handler then sends verbatim, so on that
route the detail is client-visible. -/
theorem errorHandler_internal_generic (e1 e2 : JsError) :
    errorHandler (Thrown.js e1) =
      ⟨500, false, "Internal server error", some "INTERNAL_ERROR"⟩ ∧
    errorHandler (Thrown.js e1) = errorHandler (Thrown.js e2) ∧
    (e1.message ≠ "" →
      getAllUsersRoute emptyStore (some e1) =
        Except.error ⟨500, false, e1.message, some "INTERNAL_ERROR"⟩) := by
  refine ⟨rfl, rfl, fun h => ?_⟩
  have h2 : (e1.message == "") = false := by simp [h]
  simp [getAllUsersRoute, getAllUsers, errorHandler, createError, ErrorCodes.INTERNAL_ERROR, h2]

/-- Witness for C8 amended at a concrete input. -/
theorem errorHandler_internal_generic_witness :
    errorHandler (Thrown.js ⟨"db down"⟩) =
      ⟨500, false, "Internal server error", some "INTERNAL_ERROR"⟩ ∧
    getAllUsersRoute emptyStore (some ⟨"db down"⟩) =
      Except.error ⟨500, false, "db down", some "INTERNAL_ERROR"⟩ := by
  have h := errorHandler_internal_generic ⟨"db down"⟩ ⟨"db down"⟩
  exact ⟨h.1, h.2.2 (by decide)⟩

/-- C10: every read operation returns the store it was given: for every
input and starting state the user set and the edge set are unchanged. -/
theorem reads_leave_store_unchanged (s : Store) (a b u : String) (pag : Pagination)
    (ordered : List Follow) (fault : Option JsError) :
    (isFollowing s a b).2 = s ∧
    (getFollowers s u pag ordered).2 = s ∧
    (getFollowing s u pag ordered).2 = s ∧
    (getFollowerCount s u).2 = s ∧
    (getFollowingCount s u).2 = s ∧
    (getAllUsers s fault).2 = s := by
  refine ⟨rfl, ?_, ?_, ?_, ?_, ?_⟩
  · cases hq : user_findUnique s u <;> simp [getFollowers, hq]
  · cases hq : user_findUnique s u <;> simp [getFollowing, hq]
  · cases hq : user_findUnique s u <;> simp [getFollowerCount, hq]
  · cases hq : user_findUnique s u <;> simp [getFollowingCount, hq]
  · cases fault <;> rfl

end FollowSvc
